import Mathlib

/-!
Shallow embedding of the wyfo/pyo3-async coroutine bridge.

The embedding translates `src/coroutine.rs` (the generic Coroutine engine
driving a `PyFuture` through host-driven steps with a pluggable
`CoroutineWaker` backend), `src/async_generator.rs` (the `AsyncGenerator`
engine over a `PyStream`), the Python-protocol adapters of `src/utils.rs`
(`send`/`throw`/`close`, `asend`/`athrow`/`aclose`) and the
backend-dispatch logic of `src/sniffio.rs`.

Host objects and Python exceptions are modelled by small inductive types.
A future is modelled parametrically by a state type `F` and a poll
function `F → FutPoll F`; a concrete script instance `FutS` makes every
theorem checkable on explicit inputs.  Side effects visible to the engine
(throw-callback invocations, waker creation/refresh, polls of the wrapped
computation) are recorded in an event trace, so that properties such as
"zero polls occur" are stated as facts about the trace.
-/

set_option autoImplicit false

namespace PyO3Async

/-- Host (Python) objects, as far as the bridge inspects them: completion
values, `None`, and the opaque awaitable placeholders produced by a
backend's `yield_`. -/
inductive Obj where
  | int (n : Nat)
  | pyNone
  | yielded (n : Nat)
  deriving DecidableEq, Repr

/-- Python exceptions, as far as the bridge constructs or compares them. -/
inductive PyErr where
  | runtimeError (msg : String)
  | stopAsyncIteration
  | stopIteration (v : Obj)
  | exc (n : Nat)
  deriving DecidableEq, Repr

/-- The reuse error raised by `Coroutine::poll` when the future is gone
(`coroutine.rs`, lines 81-85). -/
def reuseError : PyErr := .runtimeError "cannot reuse already awaited coroutine"

instance exceptDecEq {ε α : Type} [DecidableEq ε] [DecidableEq α] :
    DecidableEq (Except ε α) := fun x y =>
  match x, y with
  | .ok a, .ok b =>
    if h : a = b then isTrue (by rw [h]) else isFalse (by intro hh; cases hh; exact h rfl)
  | .error a, .error b =>
    if h : a = b then isTrue (by rw [h]) else isFalse (by intro hh; cases hh; exact h rfl)
  | .ok _, .error _ => isFalse (by intro hh; cases hh)
  | .error _, .ok _ => isFalse (by intro hh; cases hh)

/-- Outcome of polling a future with state type `F`: `Pending` carries the
advanced state (the future is polled in place), `Ready` carries the
completion result (`PyResult<PyObject>`). -/
inductive FutPoll (F : Type) where
  | pending (f : F)
  | ready (r : Except PyErr Obj)

/-- Waker backend behaviour, the `CoroutineWaker` trait of `coroutine.rs`:
`new`, `yield_` (both fallible), `update` (the refresh hook, modelled as
returning the refreshed state), and `raise` whose error is the injected
error surfaced by the backend (`raise` returns `PyResult<()>`, so only its
error component matters to the engine). `wake`/`wake_threadsafe` act on
the host runtime only and never feed back into a step, so they carry no
engine-visible state here. -/
structure Backend (W : Type) where
  new : Except PyErr W
  yield_ : W → Except PyErr Obj
  update : W → Except PyErr W
  raise : W → Option PyErr

/-- The `Waker<W>` wrapper of `coroutine.rs`: backend state plus the thread
id recorded at creation. -/
structure Waker (W : Type) where
  inner : W
  thread_id : Nat
  deriving DecidableEq, Repr

/-- The `Coroutine<W>` struct of `coroutine.rs`: the optionally-held boxed
future, whether a throw-callback is registered, and the optionally-created
waker. The throw-callback's only engine-visible behaviour is being invoked,
so it is modelled by its presence; invocations are recorded as events. -/
structure Coroutine (F W : Type) where
  future : Option F
  throw : Bool
  waker : Option (Waker W)

/-- Engine-visible side effects of one step, in order of occurrence. -/
inductive Event where
  | threwCb (exc : Option PyErr)
  | wakerNew (tid : Nat)
  | wakerUpdate
  | polled
  deriving DecidableEq, Repr

/-- Result of a successful step, `IterNextOutput<PyObject, PyObject>`. -/
inductive StepOut where
  | yld (o : Obj)
  | ret (o : Obj)
  deriving DecidableEq, Repr

/-- The waker maintenance phase of `Coroutine::poll` (lines 95-102):
if a waker exists and the engine holds the only reference to it
(`Arc::get_mut` succeeds, input `uniq`), refresh it in place keeping its
recorded thread id; otherwise create a fresh waker recording the current
thread id. Errors of `update`/`new` propagate. -/
def wakerPhase {W : Type} (B : Backend W) (wk : Option (Waker W)) (tid : Nat)
    (uniq : Bool) : Except PyErr (Waker W × Event) :=
  match wk, uniq with
  | some w, true => (B.update w.inner).map fun wi => (⟨wi, w.thread_id⟩, Event.wakerUpdate)
  | _, _ => B.new.map fun wi => (⟨wi, tid⟩, Event.wakerNew tid)

/-- The poll of the wrapped future at the end of `Coroutine::poll`
(lines 103-113): `Ready` drops the future and returns its value or
propagates its error; `Pending` yields the waker's `yield_` object
(whose own error propagates with the future kept). -/
def pollFut {F W : Type} (pollF : F → FutPoll F) (B : Backend W)
    (c : Coroutine F W) (fut : F) (w : Waker W) (evs : List Event) :
    Except PyErr StepOut × Coroutine F W × List Event :=
  match pollF fut with
  | .ready (.ok v) => (.ok (.ret v), { c with future := none }, evs ++ [Event.polled])
  | .ready (.error e) => (.error e, { c with future := none }, evs ++ [Event.polled])
  | .pending f2 =>
    match B.yield_ w.inner with
    | .ok o => (.ok (.yld o), { c with future := some f2 }, evs ++ [Event.polled])
    | .error e => (.error e, { c with future := some f2 }, evs ++ [Event.polled])

/-- Continuation of `Coroutine::poll` after the injected-error dispatch:
waker maintenance then the poll. A waker-phase failure propagates with the
future kept and the waker unchanged (`W::new` failing leaves `self.waker`
unassigned; `update` failing leaves the old waker in place). -/
def pollCont {F W : Type} (pollF : F → FutPoll F) (B : Backend W)
    (c : Coroutine F W) (fut : F) (tid : Nat) (uniq : Bool) (evs : List Event) :
    Except PyErr StepOut × Coroutine F W × List Event :=
  match wakerPhase B c.waker tid uniq with
  | .error e => (.error e, c, evs)
  | .ok (w, ev) => pollFut pollF B { c with waker := some w } fut w (evs ++ [ev])

/-- The step function `Coroutine::poll` of `coroutine.rs` (lines 76-114).
Inputs beyond the explicit exception: `tid` is the stepping thread's id
(`current_thread_id()`), `uniq` tells whether `Arc::get_mut` on the stored
waker succeeds at this step (no outstanding clones held by the future or
executor). Returns the step result, the updated coroutine and the event
trace of the step. -/
def Coroutine.poll {F W : Type} (pollF : F → FutPoll F) (B : Backend W)
    (c : Coroutine F W) (exc : Option PyErr) (tid : Nat) (uniq : Bool) :
    Except PyErr StepOut × Coroutine F W × List Event :=
  match c.future with
  | none => (.error reuseError, c, [])
  | some fut =>
    match exc.orElse (fun _ => c.waker.bind fun w => B.raise w.inner), c.throw with
    | some e, false => (.error e, { c with future := none }, [])
    | some e, true => pollCont pollF B c fut tid uniq [Event.threwCb (some e)]
    | none, _ => pollCont pollF B c fut tid uniq []

/-- The `Coroutine::close` of `coroutine.rs` (lines 58-72): take the future
(dropping it unconditionally); if a throw-callback exists, invoke it with
no error and poll once with a no-op waker, surfacing a `Ready(Err)` of that
drain poll to the caller. -/
def Coroutine.close {F W : Type} (pollF : F → FutPoll F)
    (c : Coroutine F W) : Except PyErr Unit × Coroutine F W × List Event :=
  match c.future with
  | none => (.ok (), c, [])
  | some fut =>
    if c.throw then
      match pollF fut with
      | .ready (.error e) =>
        (.error e, { c with future := none }, [Event.threwCb none, Event.polled])
      | _ => (.ok (), { c with future := none }, [Event.threwCb none, Event.polled])
    else (.ok (), { c with future := none }, [])

/-- Inputs of one step: the explicit exception, the stepping thread's id,
and whether the engine holds the unique reference to the waker. -/
structure StepIn where
  exc : Option PyErr
  tid : Nat
  uniq : Bool

/-- Run a sequence of steps, collecting every result and the concatenated
event trace. -/
def Coroutine.run {F W : Type} (pollF : F → FutPoll F) (B : Backend W) :
    Coroutine F W → List StepIn →
    List (Except PyErr StepOut) × Coroutine F W × List Event
  | c, [] => ([], c, [])
  | c, i :: is =>
    let (r, c2, evs) := c.poll pollF B i.exc i.tid i.uniq
    let (rs, c3, evs2) := c2.run pollF B is
    (r :: rs, c3, evs ++ evs2)

/-- Script futures: a list of poll outcomes, consumed head first. An
exhausted script stays pending. This is the concrete instance used to
evaluate the engine on explicit inputs. -/
inductive FStep where
  | fpending
  | fready (r : Except PyErr Obj)
  deriving DecidableEq, Repr

/-- State of a script future. -/
abbrev FutS := List FStep

/-- Poll a script future. -/
def pollScript : FutS → FutPoll FutS
  | [] => .pending []
  | .fpending :: rest => .pending rest
  | .fready r :: _ => .ready r

/-- A trivial concrete waker backend: creation always succeeds,
`yield_` returns a fixed placeholder, `update` is the identity and no
injected error is ever surfaced. -/
def unitB : Backend Unit where
  new := .ok ()
  yield_ := fun _ => .ok (Obj.yielded 0)
  update := fun _ => .ok ()
  raise := fun _ => none

/-! Stream and AsyncGenerator embedding (`src/async_generator.rs`). -/

/-- One entry of a script stream: a pending poll or an item
(`Poll::Ready(Some(res))`); the end of the script is exhaustion
(`Poll::Ready(None)`). -/
inductive StreamStep where
  | spending
  | sitem (r : Except PyErr Obj)
  deriving DecidableEq, Repr

/-- State of a script stream. -/
abbrev StreamScript := List StreamStep

/-- Outcome of `poll_next` on a script stream. -/
inductive StreamPoll where
  | snPending (s : StreamScript)
  | snReady (r : Option (Except PyErr Obj)) (s : StreamScript)

/-- Poll a script stream (`PyStream::poll_next_py`). -/
def pollNextScript : StreamScript → StreamPoll
  | [] => .snReady none []
  | .spending :: rest => .snPending rest
  | .sitem r :: rest => .snReady (some r) rest

/-- The exhaustion error of `PyStreamNext::poll_py`: `PyStopAsyncIteration`. -/
def stopErr : PyErr := .stopAsyncIteration

/-- Outcome of one `PyStreamNext::poll_py` call. -/
inductive SNPoll where
  | pending
  | ready (r : Except PyErr Obj)
  deriving DecidableEq, Repr

/-- The single-shot fetch future `PyStreamNext::poll_py` of
`async_generator.rs` (lines 20-38), acting on the shared `StreamNext`
cell: a cleared cell fails with the exhaustion error; otherwise the
stream is polled once — `Pending` passes through (with the stream state
advanced in place), an item is returned (clearing the cell when the
`close` flag is set), exhaustion clears the cell and fails with the
exhaustion error. -/
def pyStreamNextPoll (close : Bool) : Option StreamScript → SNPoll × Option StreamScript
  | none => (.ready (.error stopErr), none)
  | some s =>
    match pollNextScript s with
    | .snPending s2 => (.pending, some s2)
    | .snReady (some r) s2 => (.ready r, if close then none else some s2)
    | .snReady none _ => (.ready (.error stopErr), none)

/-- Drive `pyStreamNextPoll` over the pending entries of a script until it
reports `ready`, returning the resolution and the final cell. -/
def resolveAux (close : Bool) : StreamScript → Except PyErr Obj × Option StreamScript
  | [] => (.error stopErr, none)
  | .spending :: rest => resolveAux close rest
  | .sitem r :: rest => (r, if close then none else some rest)

/-- Full resolution of one fetch coroutine: repeated `pyStreamNextPoll`
until `ready` (see `resolveStreamNext_step` below for the
correspondence). -/
def resolveStreamNext (close : Bool) : Option StreamScript → Except PyErr Obj × Option StreamScript
  | none => (.error stopErr, none)
  | some s => resolveAux close s

/-- Resolve `k` successive `next()` coroutines, threading the shared cell. -/
def genResolveN (close : Bool) : Nat → Option StreamScript → List (Except PyErr Obj) × Option StreamScript
  | 0, cell => ([], cell)
  | k + 1, cell =>
    let p := resolveStreamNext close cell
    let q := genResolveN close k p.2
    (p.1 :: q.1, q.2)

/-- Script stream yielding exactly the values of `vs`, then exhausting. -/
def itemsScript (vs : List Obj) : StreamScript := vs.map fun v => StreamStep.sitem (.ok v)

/-- Future wrapped by a coroutine handed out by an `AsyncGenerator`
method: the shared `PyStreamNext` fetch (with its close flag), or the
immediate-error future `async move { Err(exc) }` built by `throw`
without a callback. -/
inductive GenFut where
  | streamNext (close : Bool)
  | immediateErr (e : PyErr)
  deriving DecidableEq, Repr

/-- The `AsyncGenerator` struct of `async_generator.rs`: the shared
stream cell (the `StreamOrNext` handle, with `none` meaning cleared) and
whether a throw-callback is registered. -/
structure AsyncGen where
  cell : Option StreamScript
  throw : Bool
  deriving DecidableEq, Repr

/-- The method `AsyncGenerator::next` (`async_generator.rs` lines 84-91):
hand out a fresh single-shot coroutine over the shared handle; the
generator state itself is untouched. -/
def AsyncGen.nextM (g : AsyncGen) : GenFut × AsyncGen := (.streamNext false, g)

/-- The method `AsyncGenerator::throw` (lines 93-99): with a callback,
invoke it with the error then behave like `next`; without one, produce a
coroutine over `async move { Err(exc) }` without touching the stream. -/
def AsyncGen.throwM (g : AsyncGen) (exc : PyErr) : GenFut × AsyncGen × List Event :=
  if g.throw then (.streamNext false, g, [Event.threwCb (some exc)])
  else (.immediateErr exc, g, [])

/-- The method `AsyncGenerator::close` (lines 101-106): invoke the
callback (when registered) with no error, then behave like `next` with
the close flag set. -/
def AsyncGen.closeM (g : AsyncGen) : GenFut × AsyncGen × List Event :=
  (.streamNext true, g, if g.throw then [Event.threwCb none] else [])

/-- Resolve a coroutine handed out by an `AsyncGenerator` method against
the shared cell. The immediate-error future raises its error and never
touches the cell. -/
def resolveGenFut : GenFut → Option StreamScript → Except PyErr Obj × Option StreamScript
  | .streamNext cl, cell => resolveStreamNext cl cell
  | .immediateErr e, cell => (.error e, cell)

/-! Python-protocol adapters of `src/utils.rs` (the `generate!` macro). -/

/-- The helper `poll_result` of `utils.rs` (lines 50-55), composed with
the error propagation of its callers: `Yield` is returned as-is, `Return`
becomes a raised `StopIteration` carrying the value. -/
def poll_result : Except PyErr StepOut → Except PyErr Obj
  | .ok (.yld o) => .ok o
  | .ok (.ret o) => .error (.stopIteration o)
  | .error e => .error e

/-- The method `Coroutine::send` of `utils.rs` (lines 87-89): the sent
value is bound as `_value` and ignored; the engine is stepped with no
exception and the result mapped through `poll_result`. -/
def Coroutine.send {F W : Type} (pollF : F → FutPoll F) (B : Backend W)
    (c : Coroutine F W) (_value : Obj) (tid : Nat) (uniq : Bool) :
    Except PyErr Obj × Coroutine F W × List Event :=
  let p := c.poll pollF B none tid uniq
  (poll_result p.1, p.2)

/-- The method `Coroutine::__next__` of `utils.rs` (lines 107-112): the
engine stepped with no exception. -/
def Coroutine.nextStep {F W : Type} (pollF : F → FutPoll F) (B : Backend W)
    (c : Coroutine F W) (tid : Nat) (uniq : Bool) :
    Except PyErr StepOut × Coroutine F W × List Event :=
  c.poll pollF B none tid uniq

/-- The method `AsyncGenerator::asend` of `utils.rs` (lines 151-153): the
sent value is bound as `_value` and ignored; delegates to `next`. -/
def AsyncGen.asend (g : AsyncGen) (_value : Obj) : GenFut × AsyncGen := g.nextM

/-- The method `AsyncGenerator::__anext__` of `utils.rs` (lines 168-170). -/
def AsyncGen.anextM (g : AsyncGen) : GenFut × AsyncGen := g.nextM

/-! Sniffio backend dispatch (`src/sniffio.rs`). -/

/-- Operations of the `CoroutineWaker` trait of `coroutine.rs`. -/
inductive WakerOp where
  | newOp
  | yieldOp
  | wakeOp
  | wakeThreadsafeOp
  | updateOp
  | raiseOp
  deriving DecidableEq, Repr

/-- Operations the `CoroutineWaker` trait declares without a default body
(`coroutine.rs` lines 15-26), which every implementation must therefore
provide: `new`, `yield_`, `wake` and `wake_threadsafe`; `update` and
`raise` have defaults. -/
def traitRequiredOp : WakerOp → Bool
  | .newOp | .yieldOp | .wakeOp | .wakeThreadsafeOp => true
  | .updateOp | .raiseOp => false

/-- Operations the `impl CoroutineWaker for Waker` block of `sniffio.rs`
(lines 14-51) actually provides: `new`, `yield_`, `wake`, `update` and
`raise` — `wake_threadsafe` is absent. -/
def sniffioProvidedOp : WakerOp → Bool
  | .newOp | .yieldOp | .wakeOp | .updateOp | .raiseOp => true
  | .wakeThreadsafeOp => false

/-- The `enum Waker` of `sniffio.rs`: the chosen delegate backend. -/
inductive SniffWaker (A T : Type) where
  | asyncioW (a : A)
  | trioW (t : T)
  deriving DecidableEq, Repr

/-- The constructor `Waker::new` of `sniffio.rs` (lines 15-21): probe
`sniffio.current_async_library()`; on `"asyncio"` delegate creation to
the asyncio backend, on `"trio"` to the trio backend, and fail with the
named runtime error otherwise. -/
def sniffioNew {A T : Type} (sniffed : String)
    (aNew : Except PyErr A) (tNew : Except PyErr T) :
    Except PyErr (SniffWaker A T) :=
  if sniffed = "asyncio" then aNew.map SniffWaker.asyncioW
  else if sniffed = "trio" then tNew.map SniffWaker.trioW
  else .error (.runtimeError ("unsupported runtime " ++ sniffed))

/-- The sniffio waker plugged into the generic engine, with `sniffed` the
ambient runtime identifier: creation probes and dispatches; `yield_`,
`update` and `raise` delegate to the chosen backend exactly as the match
arms of `sniffio.rs` lines 24-50 do. -/
def sniffioB {A T : Type} (sniffed : String) (aB : Backend A) (tB : Backend T) :
    Backend (SniffWaker A T) where
  new := sniffioNew sniffed aB.new tB.new
  yield_ := fun w =>
    match w with
    | .asyncioW a => aB.yield_ a
    | .trioW t => tB.yield_ t
  update := fun w =>
    match w with
    | .asyncioW a => (aB.update a).map SniffWaker.asyncioW
    | .trioW t => (tB.update t).map SniffWaker.trioW
  raise := fun w =>
    match w with
    | .asyncioW a => aB.raise a
    | .trioW t => tB.raise t

/-! Concrete inputs used by the witnesses and the counterexample. -/

/-- A coroutine over a script future that is immediately ready with 42. -/
def cRet42 : Coroutine FutS Unit :=
  { future := some [FStep.fready (.ok (.int 42))], throw := false, waker := none }

/-- A coroutine over a script future that is pending once, then ready
with 42. -/
def cPend42 : Coroutine FutS Unit :=
  { future := some [FStep.fpending, FStep.fready (.ok (.int 42))], throw := false, waker := none }

/-- A coroutine over a twice-pending script future. -/
def cTwoPend : Coroutine FutS Unit :=
  { future := some [FStep.fpending, FStep.fpending], throw := false, waker := none }

/-- A coroutine with a registered throw-callback whose future is
immediately ready with an error. -/
def cThrowErr : Coroutine FutS Unit :=
  { future := some [FStep.fready (.error (.exc 3))], throw := true, waker := none }

/-- A stock step input: no exception, thread 0, unique waker reference. -/
def in0 : StepIn := { exc := none, tid := 0, uniq := true }

/-- A step input on thread 0 with the waker reference shared
(`Arc::get_mut` fails). -/
def inShared : StepIn := { exc := none, tid := 0, uniq := false }

/-- Recognizer for waker-creation events. -/
def isWakerNew : Event → Bool
  | .wakerNew _ => true
  | _ => false

/-- Event trace of stepping `cTwoPend` twice, the second time with the
waker reference shared. -/
def c7trace : List Event :=
  (cTwoPend.run pollScript unitB [in0, inShared]).2.2

/-- A fresh coroutine (no waker yet) over a pending script future, typed
for the sniffio backend. -/
def cFresh : Coroutine FutS (SniffWaker Unit Unit) :=
  { future := some [FStep.fpending], throw := false, waker := none }

/-- An async generator with one buffered item and no throw-callback. -/
def gNoCb : AsyncGen := { cell := some (itemsScript [Obj.int 1]), throw := false }

/-! Helper lemmas about the engine, shared by the claim theorems. -/

section EngineLemmas

variable {F W : Type} (pollF : F → FutPoll F) (B : Backend W)

theorem pollFut_ret_future_none (c : Coroutine F W) (fut : F) (w : Waker W)
    (evs : List Event) (v : Obj)
    (h : (pollFut pollF B c fut w evs).1 = .ok (.ret v)) :
    (pollFut pollF B c fut w evs).2.1.future = none := by
  cases hp : pollF fut with
  | ready r => cases r <;> simp [pollFut, hp]
  | pending f2 =>
    simp only [pollFut, hp] at h
    cases hy : B.yield_ w.inner <;> rw [hy] at h <;> simp at h

theorem pollCont_ret_future_none (c : Coroutine F W) (fut : F) (tid : Nat)
    (uniq : Bool) (evs : List Event) (v : Obj)
    (h : (pollCont pollF B c fut tid uniq evs).1 = .ok (.ret v)) :
    (pollCont pollF B c fut tid uniq evs).2.1.future = none := by
  cases hw : wakerPhase B c.waker tid uniq with
  | error e => simp [pollCont, hw] at h
  | ok p =>
    obtain ⟨w, ev⟩ := p
    simp only [pollCont, hw] at h ⊢
    exact pollFut_ret_future_none pollF B _ fut w _ v h

theorem poll_ret_future_none (c : Coroutine F W) (exc : Option PyErr)
    (tid : Nat) (uniq : Bool) (v : Obj)
    (h : (c.poll pollF B exc tid uniq).1 = .ok (.ret v)) :
    (c.poll pollF B exc tid uniq).2.1.future = none := by
  cases hf : c.future with
  | none => simp [Coroutine.poll, hf] at h
  | some fut =>
    cases he : exc.orElse (fun _ => c.waker.bind fun w => B.raise w.inner) with
    | none =>
      simp only [Coroutine.poll, hf, he] at h ⊢
      exact pollCont_ret_future_none pollF B c fut tid uniq _ v h
    | some e =>
      cases ht : c.throw with
      | false => simp [Coroutine.poll, hf, he, ht] at h
      | true =>
        simp only [Coroutine.poll, hf, he, ht] at h ⊢
        exact pollCont_ret_future_none pollF B c fut tid uniq _ v h

theorem close_future_none (c : Coroutine F W) :
    (c.close pollF).2.1.future = none := by
  cases hf : c.future with
  | none => simp [Coroutine.close, hf]
  | some fut =>
    cases ht : c.throw with
    | false => simp [Coroutine.close, hf, ht]
    | true =>
      cases hp : pollF fut with
      | ready r => cases r <;> simp [Coroutine.close, hf, ht, hp]
      | pending f2 => simp [Coroutine.close, hf, ht, hp]

theorem poll_closed (c : Coroutine F W) (exc : Option PyErr) (tid : Nat)
    (uniq : Bool) (h : c.future = none) :
    c.poll pollF B exc tid uniq = (.error reuseError, c, []) := by
  simp [Coroutine.poll, h]

theorem run_closed (c : Coroutine F W) (ins : List StepIn) (h : c.future = none) :
    c.run pollF B ins = (ins.map fun _ => .error reuseError, c, []) := by
  induction ins with
  | nil => rfl
  | cons i is ih =>
    unfold Coroutine.run
    rw [poll_closed pollF B c i.exc i.tid i.uniq h]
    simp [ih]

theorem pollFut_pending_eq (c : Coroutine F W) (fut : F) (w : Waker W)
    (evs : List Event) (f2 : F) (o : Obj)
    (hp : pollF fut = .pending f2) (hy : B.yield_ w.inner = .ok o) :
    pollFut pollF B c fut w evs
      = (.ok (.yld o), { c with future := some f2 }, evs ++ [Event.polled]) := by
  simp [pollFut, hp, hy]

theorem pollFut_ready_eq (c : Coroutine F W) (fut : F) (w : Waker W)
    (evs : List Event) (r : Except PyErr Obj) (hp : pollF fut = .ready r) :
    pollFut pollF B c fut w evs
      = ((match r with | .ok v => .ok (.ret v) | .error e => .error e),
         { c with future := none }, evs ++ [Event.polled]) := by
  cases r <;> simp [pollFut, hp]

theorem pollCont_eq_ok (c : Coroutine F W) (fut : F) (tid : Nat) (uniq : Bool)
    (evs : List Event) (w : Waker W) (ev : Event)
    (hw : wakerPhase B c.waker tid uniq = .ok (w, ev)) :
    pollCont pollF B c fut tid uniq evs
      = pollFut pollF B { c with waker := some w } fut w (evs ++ [ev]) := by
  simp [pollCont, hw]

theorem pollCont_eq_err (c : Coroutine F W) (fut : F) (tid : Nat) (uniq : Bool)
    (evs : List Event) (e : PyErr)
    (hw : wakerPhase B c.waker tid uniq = .error e) :
    pollCont pollF B c fut tid uniq evs = (.error e, c, evs) := by
  simp [pollCont, hw]

theorem poll_step_eq (c : Coroutine F W) (fut : F) (exc : Option PyErr)
    (tid : Nat) (uniq : Bool) (hfut : c.future = some fut)
    (hpath : exc.orElse (fun _ => c.waker.bind fun wk => B.raise wk.inner) = none
      ∨ c.throw = true) :
    ∃ evs0 : List Event,
      c.poll pollF B exc tid uniq = pollCont pollF B c fut tid uniq evs0 := by
  cases he : exc.orElse (fun _ => c.waker.bind fun wk => B.raise wk.inner) with
  | none => exact ⟨[], by simp [Coroutine.poll, hfut, he]⟩
  | some e =>
    have ht : c.throw = true := by
      rcases hpath with h | h
      · rw [he] at h; cases h
      · exact h
    exact ⟨[Event.threwCb (some e)], by simp [Coroutine.poll, hfut, he, ht]⟩

theorem pollFut_trace (c : Coroutine F W) (fut : F) (w : Waker W)
    (evs : List Event) :
    (pollFut pollF B c fut w evs).2.2 = evs ++ [Event.polled] := by
  cases hp : pollF fut with
  | ready r => cases r <;> simp [pollFut, hp]
  | pending f2 => cases hy : B.yield_ w.inner <;> simp [pollFut, hp, hy]

end EngineLemmas

/-! Claim C1 -/

/-- C1: after a step of the Coroutine engine has returned its final value
the future is gone; `close()` always leaves the future gone (even if the
drain poll raised an error, since `close` takes the future first); and a
Coroutine whose future is gone fails every further step with the reuse
error `"cannot reuse already awaited coroutine"` while producing no events
at all — in particular the underlying future is never polled again. -/
theorem no_reuse_after_completion_or_close {F W : Type}
    (pollF : F → FutPoll F) (B : Backend W) (c c2 c3 : Coroutine F W)
    (exc : Option PyErr) (tid : Nat) (uniq : Bool) (v : Obj) (ins : List StepIn) :
    ((c.poll pollF B exc tid uniq).1 = .ok (.ret v) →
      (c.poll pollF B exc tid uniq).2.1.future = none)
    ∧ (c2.close pollF).2.1.future = none
    ∧ (c3.future = none →
        c3.run pollF B ins = (ins.map fun _ => .error reuseError, c3, [])) := by
  exact ⟨poll_ret_future_none pollF B c exc tid uniq v,
    close_future_none pollF c2, run_closed pollF B c3 ins⟩

/-- Witness for C1: a script future immediately ready with 42 — the step
returns 42, the future is gone, two further steps both fail with the
reuse error with no events, and close on a held future leaves it gone. -/
theorem no_reuse_after_completion_or_close_witness :
    (cRet42.poll pollScript unitB none 0 true).1 = .ok (.ret (.int 42))
    ∧ (cRet42.poll pollScript unitB none 0 true).2.1.future = none
    ∧ ((cRet42.poll pollScript unitB none 0 true).2.1.run pollScript unitB [in0, in0]
        = ([.error reuseError, .error reuseError],
           (cRet42.poll pollScript unitB none 0 true).2.1, []))
    ∧ (cThrowErr.close pollScript).2.1.future = none := by
  have t := no_reuse_after_completion_or_close pollScript unitB cRet42 cThrowErr
    ((cRet42.poll pollScript unitB none 0 true).2.1) none 0 true (.int 42) [in0, in0]
  have h1 : (cRet42.poll pollScript unitB none 0 true).1 = .ok (.ret (.int 42)) := by decide
  have h2 := t.1 h1
  exact ⟨h1, h2, t.2.2 h2, t.2.1⟩

/-! Claim C2 -/

/-- C2: for every step of a Coroutine that still holds its future and
reaches the poll (no injected error pending without a callback, waker
creation/refresh succeeded): if the poll returns `Pending` the step
yields the waker's `yield_` object (and the poll happened, recorded in
the trace); if it returns `Ready` the future is dropped and the step
returns the success value or raises the error. -/
theorem poll_pending_yields_ready_returns {F W : Type}
    (pollF : F → FutPoll F) (B : Backend W) (c : Coroutine F W) (fut : F)
    (exc : Option PyErr) (tid : Nat) (uniq : Bool) (w : Waker W) (ev : Event)
    (hfut : c.future = some fut)
    (hpath : exc.orElse (fun _ => c.waker.bind fun wk => B.raise wk.inner) = none
      ∨ c.throw = true)
    (hw : wakerPhase B c.waker tid uniq = .ok (w, ev)) :
    (∀ f2 o, pollF fut = .pending f2 → B.yield_ w.inner = .ok o →
      (c.poll pollF B exc tid uniq).1 = .ok (.yld o)
      ∧ (c.poll pollF B exc tid uniq).2.1.future = some f2
      ∧ Event.polled ∈ (c.poll pollF B exc tid uniq).2.2)
    ∧ (∀ v, pollF fut = .ready (.ok v) →
      (c.poll pollF B exc tid uniq).1 = .ok (.ret v)
      ∧ (c.poll pollF B exc tid uniq).2.1.future = none)
    ∧ (∀ e, pollF fut = .ready (.error e) →
      (c.poll pollF B exc tid uniq).1 = .error e
      ∧ (c.poll pollF B exc tid uniq).2.1.future = none) := by
  obtain ⟨evs0, heq⟩ := poll_step_eq pollF B c fut exc tid uniq hfut hpath
  rw [pollCont_eq_ok pollF B c fut tid uniq evs0 w ev hw] at heq
  refine ⟨?_, ?_, ?_⟩
  · intro f2 o hp hy
    rw [heq, pollFut_pending_eq pollF B _ fut w _ f2 o hp hy]
    simp
  · intro v hp
    rw [heq, pollFut_ready_eq pollF B _ fut w _ _ hp]
    simp
  · intro e hp
    rw [heq, pollFut_ready_eq pollF B _ fut w _ _ hp]
    simp

/-- Witness for C2: the scenario of a future Pending once then Ready(42)
— the first step yields the placeholder, the second step returns 42 and
drops the future (so no further yields can occur). -/
theorem poll_pending_yields_ready_returns_witness :
    (cPend42.poll pollScript unitB none 0 true).1 = .ok (.yld (.yielded 0))
    ∧ ((cPend42.poll pollScript unitB none 0 true).2.1.poll pollScript unitB none 0 true).1
        = .ok (.ret (.int 42))
    ∧ ((cPend42.poll pollScript unitB none 0 true).2.1.poll
        pollScript unitB none 0 true).2.1.future = none := by
  have t1 := poll_pending_yields_ready_returns pollScript unitB cPend42
    [FStep.fpending, FStep.fready (.ok (.int 42))] none 0 true ⟨(), 0⟩ (Event.wakerNew 0)
    rfl (Or.inl rfl) rfl
  exact ⟨(t1.1 [FStep.fready (.ok (.int 42))] (.yielded 0) rfl rfl).1, by decide, by decide⟩

/-! Claim C3 -/

/-- C3: for a step with an effective injected error (given explicitly or
surfaced by the waker's `raise` check): with no throw-callback the future
is dropped and the step raises exactly that error with an empty event
trace — in particular zero polls; with a registered callback (and the
waker phase succeeding) the trace is exactly the callback invocation with
that error, the waker event, and the poll — so the callback is invoked
and the step proceeds to poll. -/
theorem injected_error_callback_or_fatal {F W : Type}
    (pollF : F → FutPoll F) (B : Backend W) (c : Coroutine F W) (fut : F)
    (exc : Option PyErr) (tid : Nat) (uniq : Bool) (e : PyErr)
    (hfut : c.future = some fut)
    (he : exc.orElse (fun _ => c.waker.bind fun wk => B.raise wk.inner) = some e) :
    (c.throw = false →
      c.poll pollF B exc tid uniq = (.error e, { c with future := none }, []))
    ∧ (c.throw = true →
      ∀ w ev, wakerPhase B c.waker tid uniq = .ok (w, ev) →
        (c.poll pollF B exc tid uniq).2.2
          = [Event.threwCb (some e), ev, Event.polled]) := by
  constructor
  · intro ht
    simp [Coroutine.poll, hfut, he, ht]
  · intro ht w ev hw
    have heq : c.poll pollF B exc tid uniq
        = pollCont pollF B c fut tid uniq [Event.threwCb (some e)] := by
      simp [Coroutine.poll, hfut, he, ht]
    rw [heq, pollCont_eq_ok pollF B c fut tid uniq _ w ev hw, pollFut_trace]
    simp

/-- Witness for C3: with no callback, stepping with an injected error
raises exactly it, drops the future and produces no events; with a
callback, the trace records the callback invocation with the error
followed by a poll. -/
theorem injected_error_callback_or_fatal_witness :
    cRet42.poll pollScript unitB (some (.exc 7)) 0 true
      = (.error (.exc 7), { future := none, throw := false, waker := none }, [])
    ∧ (cThrowErr.poll pollScript unitB (some (.exc 7)) 0 true).2.2
      = [Event.threwCb (some (.exc 7)), Event.wakerNew 0, Event.polled] := by
  have t1 := injected_error_callback_or_fatal pollScript unitB cRet42
    [FStep.fready (.ok (.int 42))] (some (.exc 7)) 0 true (.exc 7) rfl rfl
  have t2 := injected_error_callback_or_fatal pollScript unitB cThrowErr
    [FStep.fready (.error (.exc 3))] (some (.exc 7)) 0 true (.exc 7) rfl rfl
  exact ⟨t1.1 rfl, t2.2 rfl ⟨(), 0⟩ (Event.wakerNew 0) rfl⟩

/-! Claim C4 -/

/-- C4: close() on a Coroutine that still holds its future: without a
throw-callback it returns Ok with no events — no poll occurs; with a
callback the trace is exactly the callback invocation with no error
followed by one poll, and a `Ready(Err)` of that drain poll is returned
to the close caller while `Ready(Ok)` and `Pending` are discarded; in
every case the future is dropped. -/
theorem close_drains_and_drops {F W : Type}
    (pollF : F → FutPoll F) (c : Coroutine F W) (fut : F)
    (hfut : c.future = some fut) :
    (c.close pollF).2.1.future = none
    ∧ (c.throw = false → c.close pollF = (.ok (), { c with future := none }, []))
    ∧ (c.throw = true →
      (c.close pollF).2.2 = [Event.threwCb none, Event.polled]
      ∧ (∀ e, pollF fut = .ready (.error e) → (c.close pollF).1 = .error e)
      ∧ (∀ v, pollF fut = .ready (.ok v) → (c.close pollF).1 = .ok ())
      ∧ (∀ f2, pollF fut = .pending f2 → (c.close pollF).1 = .ok ())) := by
  refine ⟨close_future_none pollF c, ?_, ?_⟩
  · intro ht
    simp [Coroutine.close, hfut, ht]
  · intro ht
    refine ⟨?_, ?_, ?_, ?_⟩
    · cases hp : pollF fut with
      | ready r => cases r <;> simp [Coroutine.close, hfut, ht, hp]
      | pending f2 => simp [Coroutine.close, hfut, ht, hp]
    · intro e hp
      simp [Coroutine.close, hfut, ht, hp]
    · intro v hp
      simp [Coroutine.close, hfut, ht, hp]
    · intro f2 hp
      simp [Coroutine.close, hfut, ht, hp]

/-- Witness for C4: close without a callback performs no poll and drops
the future; close with a callback drains once, surfaces the drain error
and still drops the future. -/
theorem close_drains_and_drops_witness :
    cRet42.close pollScript = (.ok (), { future := none, throw := false, waker := none }, [])
    ∧ (cThrowErr.close pollScript).1 = .error (.exc 3)
    ∧ (cThrowErr.close pollScript).2.2 = [Event.threwCb none, Event.polled]
    ∧ (cThrowErr.close pollScript).2.1.future = none := by
  have t1 := close_drains_and_drops pollScript cRet42 [FStep.fready (.ok (.int 42))] rfl
  have t2 := close_drains_and_drops pollScript cThrowErr [FStep.fready (.error (.exc 3))] rfl
  exact ⟨t1.2.1 rfl, (t2.2.2 rfl).2.1 (.exc 3) rfl, (t2.2.2 rfl).1, t2.1⟩

/-! Helper lemmas about the stream model. -/

theorem resolveStreamNext_step (close : Bool) (cell : Option StreamScript) :
    (∀ r cell2, pyStreamNextPoll close cell = (.ready r, cell2) →
      resolveStreamNext close cell = (r, cell2))
    ∧ (∀ cell2, pyStreamNextPoll close cell = (.pending, cell2) →
      resolveStreamNext close cell = resolveStreamNext close cell2) := by
  constructor
  · intro r cell2 h
    cases cell with
    | none =>
      simp [pyStreamNextPoll] at h
      simp [resolveStreamNext, h.1, h.2]
    | some s =>
      cases s with
      | nil =>
        simp [pyStreamNextPoll, pollNextScript] at h
        simp [resolveStreamNext, resolveAux, h.1, h.2]
      | cons hd rest =>
        cases hd with
        | spending => simp [pyStreamNextPoll, pollNextScript] at h
        | sitem r2 =>
          simp [pyStreamNextPoll, pollNextScript] at h
          simp [resolveStreamNext, resolveAux, h.1, h.2]
  · intro cell2 h
    cases cell with
    | none => simp [pyStreamNextPoll] at h
    | some s =>
      cases s with
      | nil => simp [pyStreamNextPoll, pollNextScript] at h
      | cons hd rest =>
        cases hd with
        | spending =>
          simp [pyStreamNextPoll, pollNextScript] at h
          subst h
          simp [resolveStreamNext, resolveAux]
        | sitem r2 => simp [pyStreamNextPoll, pollNextScript] at h

theorem genResolveN_items (vs : List Obj) :
    genResolveN false vs.length (some (itemsScript vs)) = (vs.map Except.ok, some []) := by
  induction vs with
  | nil => rfl
  | cons v vs ih =>
    simp only [itemsScript, List.map_cons, List.length_cons] at ih ⊢
    simp [genResolveN, resolveStreamNext, resolveAux, ih]

theorem genResolveN_none (k : Nat) :
    genResolveN false k none = (List.replicate k (.error stopErr), none) := by
  induction k with
  | zero => rfl
  | succ k ih => simp [genResolveN, resolveStreamNext, ih, List.replicate_succ]

/-! Claim C6 -/

/-- C6: over a stream yielding the values `vs` and then ending: the
first `vs.length` resolutions of successive `next()` coroutines return
the values in order; the following call polls the exhausted stream,
clears the shared handle and raises the "iteration stopped" error; and
with the handle cleared every subsequent call raises it again (sticky
exhaustion). -/
theorem asyncgen_order_and_sticky_exhaustion (vs : List Obj) (k : Nat) :
    genResolveN false vs.length (some (itemsScript vs)) = (vs.map Except.ok, some [])
    ∧ pyStreamNextPoll false (some []) = (.ready (.error stopErr), none)
    ∧ resolveStreamNext false (some []) = (.error stopErr, none)
    ∧ pyStreamNextPoll false none = (.ready (.error stopErr), none)
    ∧ genResolveN false k none = (List.replicate k (.error stopErr), none) :=
  ⟨genResolveN_items vs, rfl, rfl, rfl, genResolveN_none k⟩

/-! Claim C7 -/

/-- C7 counterexample: stepping a twice-pending future twice, with the
waker reference shared at the second step (`Arc::get_mut` failing, as
happens whenever the pending future still holds a clone of its wake
handle), records two waker-creation events — refuting the claim that the
waker of a Coroutine is created at most once and that later steps always
refresh rather than recreate. -/
theorem waker_created_at_most_once_cex :
    ¬ (c7trace.countP (fun e => isWakerNew e) ≤ 1) := by decide

/-- C7 amended: the waker is created lazily at the first step, recording
the stepping thread's identity; on a later step it is refreshed in place
via `update` — keeping its recorded thread identity — exactly when the
engine holds the sole reference to it (`Arc::get_mut` succeeds), and is
recreated (recording the current thread) when it does not; and any step
that holds a future with no effective injected error performs precisely
this waker phase before polling. -/
theorem waker_lazy_create_refresh_or_recreate {W : Type} (B : Backend W)
    (tid : Nat) (uniq : Bool) (w : Waker W) :
    wakerPhase B none tid uniq = B.new.map (fun wi => (⟨wi, tid⟩, Event.wakerNew tid))
    ∧ wakerPhase B (some w) tid true
        = (B.update w.inner).map (fun wi => (⟨wi, w.thread_id⟩, Event.wakerUpdate))
    ∧ wakerPhase B (some w) tid false
        = B.new.map (fun wi => (⟨wi, tid⟩, Event.wakerNew tid))
    ∧ (∀ (F : Type) (pollF : F → FutPoll F) (c : Coroutine F W) (fut : F)
        (exc : Option PyErr),
        c.future = some fut →
        exc.orElse (fun _ => c.waker.bind fun wk => B.raise wk.inner) = none →
        c.poll pollF B exc tid uniq = pollCont pollF B c fut tid uniq []) := by
  refine ⟨?_, rfl, rfl, ?_⟩
  · cases uniq <;> rfl
  · intro F pollF c fut exc hfut he
    simp [Coroutine.poll, hfut, he]

/-- Witness for C7 (amended): creation at thread 5 records thread 5;
refresh keeps the recorded thread; a shared reference forces recreation
at the new thread; and a first step reduces to the waker phase plus the
poll. -/
theorem waker_lazy_create_refresh_or_recreate_witness :
    wakerPhase unitB none 5 true = .ok (⟨(), 5⟩, Event.wakerNew 5)
    ∧ wakerPhase unitB (some ⟨(), 5⟩) 7 true = .ok (⟨(), 5⟩, Event.wakerUpdate)
    ∧ wakerPhase unitB (some ⟨(), 5⟩) 7 false = .ok (⟨(), 7⟩, Event.wakerNew 7)
    ∧ cPend42.poll pollScript unitB none 0 true
        = pollCont pollScript unitB cPend42
            [FStep.fpending, FStep.fready (.ok (.int 42))] 0 true [] := by
  have t1 := waker_lazy_create_refresh_or_recreate unitB 5 true (⟨(), 5⟩ : Waker Unit)
  have t2 := waker_lazy_create_refresh_or_recreate unitB 7 true (⟨(), 5⟩ : Waker Unit)
  have t3 := waker_lazy_create_refresh_or_recreate unitB 7 false (⟨(), 5⟩ : Waker Unit)
  have t0 := waker_lazy_create_refresh_or_recreate unitB 0 true (⟨(), 0⟩ : Waker Unit)
  exact ⟨t1.1, t2.2.1, t3.2.2.1, t0.2.2.2 FutS pollScript cPend42 _ none rfl rfl⟩

/-! Claim C8 -/

/-- C8: the sniffio backend probes the ambient runtime identifier at
waker creation: `"asyncio"` delegates creation to the asyncio backend,
`"trio"` to the trio backend, and any other identifier fails waker
creation with the named "unsupported runtime" error; a fresh coroutine
stepped under such an identifier fails with exactly that error, with an
empty trace and unchanged state — before the future is ever polled.
The final conjuncts record the code bug behind this claim: the impl
block provides no `wake_threadsafe` even though the `CoroutineWaker`
trait requires one, so the cross-thread wake operation is not delegated
and "every operation" is not satisfied by the code. -/
theorem sniffio_probe_dispatch_missing_threadsafe {A T F : Type}
    (aB : Backend A) (tB : Backend T) (pollF : F → FutPoll F)
    (sniffed : String) (c : Coroutine F (SniffWaker A T)) (fut : F)
    (tid : Nat) (uniq : Bool)
    (hfresh : c.waker = none) (hfut : c.future = some fut)
    (hs1 : sniffed ≠ "asyncio") (hs2 : sniffed ≠ "trio") :
    sniffioNew "asyncio" aB.new tB.new = aB.new.map SniffWaker.asyncioW
    ∧ sniffioNew "trio" aB.new tB.new = tB.new.map SniffWaker.trioW
    ∧ sniffioNew sniffed aB.new tB.new
        = .error (.runtimeError ("unsupported runtime " ++ sniffed))
    ∧ c.poll pollF (sniffioB sniffed aB tB) none tid uniq
        = (.error (.runtimeError ("unsupported runtime " ++ sniffed)), c, [])
    ∧ sniffioProvidedOp WakerOp.wakeThreadsafeOp = false
    ∧ traitRequiredOp WakerOp.wakeThreadsafeOp = true := by
  have hnew : sniffioNew sniffed (aB.new) (tB.new)
      = (.error (.runtimeError ("unsupported runtime " ++ sniffed))
          : Except PyErr (SniffWaker A T)) := by
    simp [sniffioNew, hs1, hs2]
  have hphase : wakerPhase (sniffioB sniffed aB tB) c.waker tid uniq
      = .error (.runtimeError ("unsupported runtime " ++ sniffed)) := by
    simp [wakerPhase, hfresh, sniffioB, hnew, Except.map]
  have hpoll : c.poll pollF (sniffioB sniffed aB tB) none tid uniq
      = pollCont pollF (sniffioB sniffed aB tB) c fut tid uniq [] := by
    simp [Coroutine.poll, hfut, hfresh]
  refine ⟨rfl, rfl, hnew, ?_, rfl, rfl⟩
  rw [hpoll, pollCont_eq_err _ _ c fut tid uniq [] _ hphase]

/-- Witness for C8: the identifier "curio" fails creation with the named
error, and a fresh coroutine stepped under it fails before any poll. -/
theorem sniffio_probe_dispatch_missing_threadsafe_witness :
    sniffioNew "curio" (unitB.new) (unitB.new)
      = (.error (.runtimeError "unsupported runtime curio")
          : Except PyErr (SniffWaker Unit Unit))
    ∧ cFresh.poll pollScript (sniffioB "curio" unitB unitB) none 0 true
      = (.error (.runtimeError "unsupported runtime curio"), cFresh, []) := by
  have t := sniffio_probe_dispatch_missing_threadsafe unitB unitB pollScript "curio"
    cFresh [FStep.fpending] 0 true rfl rfl (by decide) (by decide)
  exact ⟨t.2.2.1, t.2.2.2.1⟩

/-! Claim C9 -/

/-- C9: `throw(error)` on an AsyncGenerator with no registered
throw-callback produces the immediate-error coroutine and leaves the
generator unchanged; resolving that coroutine raises exactly the error
and leaves the shared cell untouched (the stream is never polled); and a
subsequent `next()` resolves exactly as it would have had throw never
been called. -/
theorem gen_throw_without_callback (g : AsyncGen) (exc : PyErr)
    (cell : Option StreamScript) (h : g.throw = false) :
    g.throwM exc = (.immediateErr exc, g, [])
    ∧ resolveGenFut (.immediateErr exc) cell = (.error exc, cell)
    ∧ resolveGenFut ((g.throwM exc).2.1.nextM).1 cell
        = resolveGenFut (g.nextM).1 cell := by
  simp [AsyncGen.throwM, h, resolveGenFut, AsyncGen.nextM]

/-- Witness for C9: throwing error 9 at a generator with one buffered
item and no callback raises exactly error 9 and leaves the cell as it
was. -/
theorem gen_throw_without_callback_witness :
    gNoCb.throwM (.exc 9) = (.immediateErr (.exc 9), gNoCb, [])
    ∧ resolveGenFut (.immediateErr (.exc 9)) gNoCb.cell = (.error (.exc 9), gNoCb.cell)
    ∧ resolveGenFut ((gNoCb.throwM (.exc 9)).2.1.nextM).1 gNoCb.cell
        = resolveGenFut (gNoCb.nextM).1 gNoCb.cell :=
  gen_throw_without_callback gNoCb (.exc 9) gNoCb.cell rfl

/-! Claim C10 -/

/-- C10: the value passed to `Coroutine::send` (and to
`AsyncGenerator::asend`) is discarded: any two sent values produce
identical results and effects; `send` behaves exactly like the no-value
step `__next__` with its result mapped by `poll_result`, and `asend`
coincides with `__anext__`. -/
theorem send_ignores_value {F W : Type} (pollF : F → FutPoll F) (B : Backend W)
    (c : Coroutine F W) (v1 v2 : Obj) (tid : Nat) (uniq : Bool) (g : AsyncGen) :
    c.send pollF B v1 tid uniq = c.send pollF B v2 tid uniq
    ∧ c.send pollF B v1 tid uniq
        = (poll_result (c.nextStep pollF B tid uniq).1, (c.nextStep pollF B tid uniq).2)
    ∧ g.asend v1 = g.asend v2
    ∧ g.asend v1 = g.anextM :=
  ⟨rfl, rfl, rfl, rfl⟩

end PyO3Async
